import Mathlib

/-!
Shallow embedding of the core of DBSage (db_sage/app/core/config), together
with theorems checking the natural-language specification against it.

The embedded pieces are:
* `DatabaseEmbedder` (embedder.py): the relevance index over table names and
  definition texts;
* `PostgresManager.get_table_definitions` (db.py): schema introspection from
  catalog metadata;
* `DatabaseStateManager` (db.py): the connection-state manager;
* `PostgresManager.run_sql` plus `PostgresAgentInstruments.run_sql`
  (db.py / instruments.py): query execution and its file side effects.
-/

set_option autoImplicit false

namespace DBSage

/-! ## String helpers mirroring the Python primitives -/

/-- Python `str.lower()`: lowercases every character of the string. -/
def pyLower (s : String) : String :=
  ⟨s.data.map Char.toLower⟩

/-- Whether the first character list is an initial segment of the second
(helper for Python's substring test). -/
def charListHasPre : List Char → List Char → Bool
  | [], _ => true
  | _ :: _, [] => false
  | a :: as, b :: bs => a == b && charListHasPre as bs

/-- Whether `needle` occurs contiguously inside the second list
(helper for Python's substring test). -/
def charListHasSub (needle : List Char) : List Char → Bool
  | [] => needle.isEmpty
  | b :: bs => charListHasPre needle (b :: bs) || charListHasSub needle bs

/-- Python `needle in hay` on strings: substring containment. -/
def pyIn (needle hay : String) : Bool :=
  charListHasSub needle.data hay.data

/-! ## DatabaseEmbedder (embedder.py)

The index state is `map_name_to_table_def`: a Python dict from table name to
definition text, iterated in insertion order.  We embed it as a list of
(name, definition) pairs in that order; per the data model its keys are
unique within one index instance. -/

/-- The relevance index: `map_name_to_table_def` as an insertion-ordered
association list. -/
abbrev Index := List (String × String)

/-- The stored table names, in insertion order (`dict.keys()`). -/
def indexKeys (idx : Index) : List String :=
  idx.map Prod.fst

/-- `DatabaseEmbedder.get_similar_tables_via_embeddings`: the source returns
`[]` unconditionally (the embedding path is unimplemented). -/
def get_similar_tables_via_embeddings (_idx : Index) (_query : String) (_n : Nat) :
    List String :=
  []

/-- `DatabaseEmbedder.get_similar_table_via_word_match`: the loop
`tables = []; for table_name in keys: if table_name.lower() in query.lower():
tables.append(table_name)`. -/
def get_similar_table_via_word_match (idx : Index) (query : String) : List String :=
  (indexKeys idx).foldl
    (fun tables table_name =>
      if pyIn (pyLower table_name) (pyLower query) then tables ++ [table_name]
      else tables)
    []

/-- The de-duplication loop of `get_similar_tables`:
`unique_results = []; for item in result: if item not in unique_results:
unique_results.append(item)`.  Keeps the first occurrence of each element. -/
def pyDedupe (l : List String) : List String :=
  l.foldl (fun acc item => if item ∈ acc then acc else acc ++ [item]) []

/-- `DatabaseEmbedder.get_similar_tables`: concatenates the embedding results
with the word-match results, then de-duplicates with `pyDedupe`. -/
def get_similar_tables (idx : Index) (query : String) (n : Nat) : List String :=
  pyDedupe (get_similar_tables_via_embeddings idx query n
    ++ get_similar_table_via_word_match idx query)

/-- The comprehension `[self.map_name_to_table_def[table_name] for
table_name in table_names]`: looks each name up in order, failing
(`KeyError`, embedded as `none`) at the first absent one. -/
def lookupAll (idx : Index) : List String → Option (List String)
  | [] => some []
  | n :: ns => (idx.lookup n).bind fun d => (lookupAll idx ns).map fun ds => d :: ds

/-- `DatabaseEmbedder.get_table_definitions_from_names`: the comprehension
over `map_name_to_table_def`, then `"\n\n".join(table_defs)`. -/
def get_table_definitions_from_names (idx : Index) (table_names : List String) :
    Option String :=
  (lookupAll idx table_names).map fun table_defs =>
    String.intercalate "\n\n" table_defs

/-! ### Helper lemmas about the loops -/

theorem foldl_filter_append (p : String → Bool) (l : List String) (acc : List String) :
    l.foldl (fun t n => if p n then t ++ [n] else t) acc = acc ++ l.filter p := by
  induction l generalizing acc with
  | nil => simp
  | cons x xs ih =>
    cases h : p x <;> simp [List.foldl_cons, h, ih, List.filter_cons]

theorem word_match_eq_filter (idx : Index) (query : String) :
    get_similar_table_via_word_match idx query
      = (indexKeys idx).filter (fun n => pyIn (pyLower n) (pyLower query)) := by
  simpa [get_similar_table_via_word_match] using
    foldl_filter_append (fun n => pyIn (pyLower n) (pyLower query)) (indexKeys idx) []

theorem mem_pyDedupe_foldl (l : List String) (acc : List String) (x : String) :
    x ∈ l.foldl (fun a i => if i ∈ a then a else a ++ [i]) acc ↔ x ∈ acc ∨ x ∈ l := by
  induction l generalizing acc with
  | nil => simp
  | cons y ys ih =>
    by_cases h : y ∈ acc
    · simp only [List.foldl_cons, if_pos h, ih, List.mem_cons]
      constructor
      · rintro (hx | hx)
        · exact Or.inl hx
        · exact Or.inr (Or.inr hx)
      · rintro (hx | rfl | hx)
        · exact Or.inl hx
        · exact Or.inl h
        · exact Or.inr hx
    · simp only [List.foldl_cons, if_neg h, ih, List.mem_append, List.mem_singleton,
        List.mem_cons]
      tauto

theorem nodup_pyDedupe_foldl (l : List String) (acc : List String) (h : acc.Nodup) :
    (l.foldl (fun a i => if i ∈ a then a else a ++ [i]) acc).Nodup := by
  induction l generalizing acc with
  | nil => simpa using h
  | cons y ys ih =>
    by_cases hy : y ∈ acc
    · simpa [List.foldl_cons, if_pos hy] using ih acc h
    · have hacc : (acc ++ [y]).Nodup := by simpa [List.nodup_append] using ⟨h, hy⟩
      simpa [List.foldl_cons, if_neg hy] using ih (acc ++ [y]) hacc

theorem pyDedupe_foldl_sublist (l : List String) (acc : List String) :
    ∃ l', l.foldl (fun a i => if i ∈ a then a else a ++ [i]) acc = acc ++ l'
      ∧ l'.Sublist l := by
  induction l generalizing acc with
  | nil => exact ⟨[], by simp, List.Sublist.refl []⟩
  | cons y ys ih =>
    by_cases hy : y ∈ acc
    · obtain ⟨l', hl', hsub⟩ := ih acc
      exact ⟨l', by simpa [List.foldl_cons, if_pos hy] using hl',
        hsub.trans (List.sublist_cons_self y ys)⟩
    · obtain ⟨l', hl', hsub⟩ := ih (acc ++ [y])
      refine ⟨y :: l', ?_, hsub.cons₂ y⟩
      simpa [List.foldl_cons, if_neg hy, List.append_assoc] using hl'

theorem pyDedupe_nodup (l : List String) : (pyDedupe l).Nodup :=
  nodup_pyDedupe_foldl l [] List.nodup_nil

theorem mem_pyDedupe (l : List String) (x : String) : x ∈ pyDedupe l ↔ x ∈ l := by
  simpa [pyDedupe] using mem_pyDedupe_foldl l [] x

theorem pyDedupe_sublist (l : List String) : (pyDedupe l).Sublist l := by
  obtain ⟨l', hl', hsub⟩ := pyDedupe_foldl_sublist l []
  simpa [pyDedupe, hl']

/-! ## Schema introspection (db.py, PostgresManager.get_table_definitions)

`get_table_definitions` runs one catalog query joining `pg_class`,
`pg_namespace` and `pg_attribute`, filtered by `attnum > 0`,
`attisdropped = false`, `relname = table_name`, `nspname = 'public'`.
We embed the catalog as the list of joined rows, one per (table, column)
pair.  The query has no `ORDER BY` clause, so the rows come back in the
order the catalog presents them, i.e. in list order here. -/

/-- One row of the joined catalog relation: a column of a table. -/
structure CatalogColumn where
  relname : String
  nspname : String
  attnum : Int
  attname : String
  formattedType : String
  attisdropped : Bool
deriving DecidableEq

/-- The WHERE clause of `get_def_stmt`. -/
def catalogQueryPred (table_name : String) (c : CatalogColumn) : Bool :=
  decide (0 < c.attnum) && !c.attisdropped && (c.relname == table_name)
    && (c.nspname == "public")

/-- Running `get_def_stmt`: the matching rows, in catalog order
(the statement has no `ORDER BY`). -/
def runGetDefQuery (catalog : List CatalogColumn) (table_name : String) :
    List CatalogColumn :=
  catalog.filter (catalogQueryPred table_name)

/-- Python `s.rstrip(",\n")`: strips every trailing comma or newline. -/
def rstripCommaNl (s : String) : String :=
  ⟨(s.data.reverse.dropWhile fun c => c == ',' || c == '\n').reverse⟩

/-- `PostgresManager.get_table_definitions`: runs the catalog query, then
builds `"CREATE TABLE {name} (\n"`, appends `"{attname} {type},\n"` per row,
strips the trailing `",\n"` and appends `"\n);"`. -/
def get_table_definitions (catalog : List CatalogColumn) (table_name : String) :
    String :=
  let rows := runGetDefQuery catalog table_name
  let create_table_stmt := rows.foldl
    (fun stmt row => stmt ++ row.attname ++ " " ++ row.formattedType ++ ",\n")
    ("CREATE TABLE " ++ table_name ++ " (\n")
  rstripCommaNl create_table_stmt ++ "\n);"

/-- The spec's `TableDefinition` serialization, taken as a function of the
name and the ordered `(columnName, columnType)` sequence: name, then each
column as `name type`, comma-separated, trailing comma stripped. -/
def buildCreateTable (table_name : String) (cols : List (String × String)) :
    String :=
  rstripCommaNl (cols.foldl
    (fun stmt c => stmt ++ c.1 ++ " " ++ c.2 ++ ",\n")
    ("CREATE TABLE " ++ table_name ++ " (\n")) ++ "\n);"

/-- The `(columnName, columnType)` pairs `get_table_definitions` uses,
in the order it uses them. -/
def describeTableColumns (catalog : List CatalogColumn) (table_name : String) :
    List (String × String) :=
  (runGetDefQuery catalog table_name).map fun r => (r.attname, r.formattedType)

/-! ## DatabaseStateManager (db.py)

The singleton's mutable state is `db_url : Optional[str]` and
`db : Optional[PostgresManager]`.  We identify a `PostgresManager` whose
connection was opened by `psycopg2.connect` with the handle id of that
connection, and carry a ghost field `openHandles` recording which connection
handles have been opened and not yet closed, so that claims about closing
the underlying session are expressible. -/

/-- The connection-state manager's state plus the ghost set of still-open
connection handles. -/
structure DBState where
  db_url : Option String
  db : Option Nat
  openHandles : List Nat
deriving DecidableEq

/-- The state installed by `__new__`: `db_url = None`, `db = None`, and no
connection has been opened. -/
def initDBState : DBState :=
  ⟨none, none, []⟩

/-- `DatabaseStateManager.set_connection`, parameterized by the outcome of
`psycopg2.connect` on this call: `some h` means the connect succeeded and
opened the fresh handle `h`; `none` means it raised (the raise is caught by
the `except Exception` branch, which logs, clears both fields and returns
`False`).  On success the code assigns `self.db_url` and `self.db` and
returns `True`; it never closes the previously stored manager. -/
def set_connection (connectOutcome : Option Nat) (db_url : String) (s : DBState) :
    DBState × Bool :=
  match connectOutcome with
  | some h =>
    ({ db_url := some db_url, db := some h, openHandles := h :: s.openHandles },
      true)
  | none =>
    ({ db_url := none, db := none, openHandles := s.openHandles }, false)

/-- `DatabaseStateManager.get_connection`: returns `self.db`. -/
def get_connection (s : DBState) : Option Nat :=
  s.db

/-- `DatabaseStateManager.close_connection`: if `self.db` is set, calls its
`__exit__` (closing the cursor and the connection, i.e. removing its handle
from the open set) and clears both fields; otherwise does nothing. -/
def close_connection (s : DBState) : DBState :=
  match s.db with
  | some h =>
    { db_url := none, db := none, openHandles := s.openHandles.erase h }
  | none => s

/-- The implicit invariant of `DatabaseStateManager`: the stored session and
the stored URL are both present or both absent. -/
def stateInv (s : DBState) : Bool :=
  s.db.isSome == s.db_url.isSome

/-! ## Query execution (db.py PostgresManager.run_sql and
instruments.py PostgresAgentInstruments.run_sql) -/

/-- A `PostgresManager`'s own fields: `conn` and `cur`, each `None` until
`connect_with_url` succeeds.  Handles are identified by ids. -/
structure PMState where
  conn : Option Nat
  cur : Option Nat
deriving DecidableEq

/-- The failures `run_sql` can raise: the `HTTPException(400, "No active
database connection")` guard in `PostgresManager.run_sql`, the plain
`Exception("No database connection available")` guard in
`PostgresAgentInstruments.run_sql`, and re-raised execution errors. -/
inductive SqlError where
  | noActiveConnection : SqlError
  | noDbConnection : SqlError
  | queryError : String → SqlError
deriving DecidableEq

/-- `PostgresManager.run_sql`, with the database engine abstracted as
`engine` (modelling `cur.execute` + `fetchall` + `json.dumps` on an open
cursor).  Returns the outcome together with the list of statements actually
handed to the cursor during the call: the guard `if not self.conn or not
self.cur` raises before anything is executed. -/
def pm_run_sql (engine : String → Except String String) (pm : PMState)
    (sql : String) : Except SqlError String × List String :=
  if pm.conn.isNone || pm.cur.isNone then (.error .noActiveConnection, [])
  else
    match engine sql with
    | .error e => (.error (.queryError e), [sql])
    | .ok json_result => (.ok json_result, [sql])

/-- The world `PostgresAgentInstruments.run_sql` acts on: its `db` field,
the two artifact files it writes, and the log of statements executed
against the engine. -/
structure InstrState where
  db : Option PMState
  resultsFile : Option String
  queryFile : Option String
  executed : List String
deriving DecidableEq

/-- `PostgresAgentInstruments.run_sql`: raises if `self.db is None`; calls
`self.db.run_sql(sql)` (whose exceptions propagate); only on success writes
the results file and then the query file and returns the success message. -/
def instr_run_sql (engine : String → Except String String) (w : InstrState)
    (sql : String) : InstrState × Except SqlError String :=
  match w.db with
  | none => (w, .error .noDbConnection)
  | some pm =>
    match pm_run_sql engine pm sql with
    | (.error e, log) => ({ w with executed := w.executed ++ log }, .error e)
    | (.ok json_result, log) =>
      ({ w with
          executed := w.executed ++ log,
          resultsFile := some json_result,
          queryFile := some sql },
        .ok "Successfully delivered results to json file")

/-! ### Further helper lemmas -/

/-- The definition text stored for a name (defaulting for absent names;
only used under a hypothesis that the name is present). -/
def storedDef (idx : Index) (n : String) : String :=
  (idx.lookup n).getD ""

theorem lookupAll_eq_map (idx : Index) (names : List String)
    (h : ∀ n ∈ names, (idx.lookup n).isSome) :
    lookupAll idx names = some (names.map (storedDef idx)) := by
  induction names with
  | nil => rfl
  | cons x xs ih =>
    obtain ⟨v, hv⟩ := Option.isSome_iff_exists.mp (h x (by simp))
    have hxs := ih fun n hn => h n (by simp [hn])
    simp [lookupAll, hv, hxs, storedDef]

theorem lookupAll_eq_none (idx : Index) (names : List String)
    (h : ∃ n ∈ names, idx.lookup n = none) :
    lookupAll idx names = none := by
  induction names with
  | nil => simp at h
  | cons x xs ih =>
    obtain ⟨n, hn, hnone⟩ := h
    rcases List.mem_cons.mp hn with rfl | hn'
    · simp [lookupAll, hnone]
    · cases hx : idx.lookup x with
      | none => simp [lookupAll, hx]
      | some v => simp [lookupAll, hx, ih ⟨n, hn', hnone⟩]

/-! ## Claim theorems -/

/-- C1: for every index state, query and `topN`, `get_similar_tables`
returns the concatenation of the embedding results followed by the
word-match results, de-duplicated preserving first-occurrence order (it
equals `pyDedupe` of the concatenation and is a sublist of it); hence the
output has no duplicate names and every name in the word-match raw output
appears in the output. -/
theorem get_similar_tables_spec (idx : Index) (query : String) (n : Nat) :
    get_similar_tables idx query n
        = pyDedupe (get_similar_tables_via_embeddings idx query n
            ++ get_similar_table_via_word_match idx query)
      ∧ (get_similar_tables idx query n).Nodup
      ∧ (∀ t ∈ get_similar_table_via_word_match idx query,
          t ∈ get_similar_tables idx query n)
      ∧ (get_similar_tables idx query n).Sublist
          (get_similar_tables_via_embeddings idx query n
            ++ get_similar_table_via_word_match idx query) := by
  refine ⟨rfl, pyDedupe_nodup _, ?_, pyDedupe_sublist _⟩
  intro t ht
  exact (mem_pyDedupe _ t).mpr (List.mem_append_right _ ht)

/-- Witness for C1 at a concrete index and query. -/
theorem get_similar_tables_spec_witness :
    "customers" ∈ get_similar_tables
      [("customers", "CREATE TABLE customers (\nid integer\n);")]
      "show me all customers" 3 :=
  (get_similar_tables_spec
      [("customers", "CREATE TABLE customers (\nid integer\n);")]
      "show me all customers" 3).2.2.1 "customers" (by decide)

/-- C5: for every index state and query, `get_similar_table_via_word_match`
returns exactly the stored table names whose lowercased text is a substring
of the lowercased query (it is the corresponding filter of the key
sequence), in the insertion order of the index (a sublist of the key
sequence). -/
theorem word_match_spec (idx : Index) (query : String) :
    get_similar_table_via_word_match idx query
        = (indexKeys idx).filter (fun n => pyIn (pyLower n) (pyLower query))
      ∧ (∀ t, t ∈ get_similar_table_via_word_match idx query
          ↔ t ∈ indexKeys idx ∧ pyIn (pyLower t) (pyLower query) = true)
      ∧ (get_similar_table_via_word_match idx query).Sublist (indexKeys idx) := by
  refine ⟨word_match_eq_filter idx query, ?_, ?_⟩
  · intro t
    rw [word_match_eq_filter]
    simp [List.mem_filter]
  · rw [word_match_eq_filter]
    exact List.filter_sublist _

/-- C9: for every index state and list of names,
`get_table_definitions_from_names` returns the stored definition texts of
the given names joined with a blank-line (`"\n\n"`) separator in the order
given when every name is present, and fails (KeyError, embedded as `none`)
when some name is absent. -/
theorem definitions_from_names_spec (idx : Index) (names : List String) :
    ((∀ n ∈ names, (idx.lookup n).isSome) →
      get_table_definitions_from_names idx names
        = some (String.intercalate "\n\n" (names.map (storedDef idx))))
    ∧ ((∃ n ∈ names, idx.lookup n = none) →
      get_table_definitions_from_names idx names = none) := by
  constructor
  · intro h
    simp [get_table_definitions_from_names, lookupAll_eq_map idx names h]
  · intro h
    simp [get_table_definitions_from_names, lookupAll_eq_none idx names h]

/-- Witness for C9: a present pair of names joins their definitions in the
order given; an absent name fails. -/
theorem definitions_from_names_spec_witness :
    get_table_definitions_from_names [("a", "DA"), ("b", "DB")] ["b", "a"]
        = some "DB\n\nDA"
      ∧ get_table_definitions_from_names [("a", "DA")] ["b"] = none := by
  constructor
  · rw [(definitions_from_names_spec [("a", "DA"), ("b", "DB")] ["b", "a"]).1
      (by decide)]
    decide
  · exact (definitions_from_names_spec [("a", "DA")] ["b"]).2
      ⟨"b", by decide, by decide⟩

/-- C4: the serialization of the "orders" definition built from the column
rows `[("id","integer"), ("name","text")]` is exactly
`CREATE TABLE orders (\nid integer,\nname text\n);`, both as the spec's
`TableDefinition` serialization and as computed by `get_table_definitions`
on the corresponding catalog. -/
theorem create_table_serialization_orders :
    buildCreateTable "orders" [("id", "integer"), ("name", "text")]
        = "CREATE TABLE orders (\nid integer,\nname text\n);"
      ∧ get_table_definitions
          [⟨"orders", "public", 1, "id", "integer", false⟩,
           ⟨"orders", "public", 2, "name", "text", false⟩] "orders"
        = "CREATE TABLE orders (\nid integer,\nname text\n);" := by
  constructor <;> decide

/-- Counterexample to C3 as stated: with catalog rows stored with
attnum 2 before attnum 1 (the query has no `ORDER BY`, so rows come back in
catalog order), `get_table_definitions` concatenates the pairs in that
order, not in ascending ordinal order. -/
theorem get_table_definitions_order_counterexample :
    get_table_definitions
        [⟨"t", "public", 2, "b", "text", false⟩,
         ⟨"t", "public", 1, "a", "integer", false⟩] "t"
        = "CREATE TABLE t (\nb text,\na integer\n);"
      ∧ get_table_definitions
          [⟨"t", "public", 2, "b", "text", false⟩,
           ⟨"t", "public", 1, "a", "integer", false⟩] "t"
        ≠ buildCreateTable "t" [("a", "integer"), ("b", "text")] := by
  constructor <;> decide

/-- C3 amended: for every catalog and table name, `get_table_definitions`
builds the definition from exactly the non-dropped catalog columns of the
table with positive ordinal position in the public schema, concatenating
the `columnName columnType` pairs in the order the catalog query returns
them, and the column count of the result equals the number of such catalog
columns. -/
theorem get_table_definitions_catalog_order (catalog : List CatalogColumn)
    (table_name : String) :
    get_table_definitions catalog table_name
        = buildCreateTable table_name (describeTableColumns catalog table_name)
      ∧ (describeTableColumns catalog table_name).length
        = catalog.countP (catalogQueryPred table_name) := by
  constructor
  · simp [get_table_definitions, buildCreateTable, describeTableColumns,
      List.foldl_map]
  · simp [describeTableColumns, runGetDefQuery, List.countP_eq_length_filter]

/-- C2 evidence (code bug): with a session active (handle 1 open), a
successful `set_connection` replaces it and returns true, but the old
session's connection handle is still open afterward — the code never closes
the previously stored manager, contradicting the claim and the method's own
docstring ("If a previous connection exists, it will be closed before
attempting to establish a new one"). -/
theorem set_connection_leaves_old_session_open :
    (set_connection (some 2) "postgres://new"
        ⟨some "postgres://old", some 1, [1]⟩).2 = true
      ∧ (set_connection (some 2) "postgres://new"
          ⟨some "postgres://old", some 1, [1]⟩).1.db = some 2
      ∧ 1 ∈ (set_connection (some 2) "postgres://new"
          ⟨some "postgres://old", some 1, [1]⟩).1.openHandles := by
  refine ⟨rfl, rfl, ?_⟩
  decide

/-- C7: for every state and every URL on which opening the connection
fails, `set_connection` returns `false` (the exception is swallowed — the
operation is total) and leaves no session active: `get_connection` returns
absent and no new handle was opened. -/
theorem set_connection_failure_spec (s : DBState) (url : String) :
    (set_connection none url s).2 = false
      ∧ get_connection (set_connection none url s).1 = none
      ∧ (set_connection none url s).1.openHandles = s.openHandles := by
  simp [set_connection, get_connection]

/-- C8: `close_connection` is idempotent (two calls in a row yield the same
state as one); when no session is open it is a no-op (and raises no error —
it is total); after any call `get_connection` returns absent, and a failing
`set_connection` keeps it absent. -/
theorem close_connection_idempotent_spec (s : DBState) (url : String) :
    close_connection (close_connection s) = close_connection s
      ∧ (s.db = none → close_connection s = s)
      ∧ get_connection (close_connection s) = none
      ∧ get_connection (set_connection none url (close_connection s)).1 = none := by
  cases hs : s.db <;>
    simp [close_connection, hs, get_connection, set_connection]

/-- Witness for C8 at the initial state. -/
theorem close_connection_idempotent_spec_witness :
    close_connection initDBState = initDBState :=
  (close_connection_idempotent_spec initDBState "postgres://u").2.1 rfl

/-- C10: the invariant that the stored session and the stored URL are both
present or both absent holds initially and is preserved by `set_connection`
(either outcome) and `close_connection`; consequently whenever
`get_connection` returns absent there is no recorded URL. -/
theorem db_state_inv_spec (s : DBState) (url : String)
    (connectOutcome : Option Nat) :
    stateInv initDBState = true
      ∧ (stateInv s = true → stateInv (set_connection connectOutcome url s).1 = true)
      ∧ (stateInv s = true → stateInv (close_connection s) = true)
      ∧ (stateInv s = true → get_connection s = none → s.db_url = none) := by
  refine ⟨rfl, ?_, ?_, ?_⟩
  · intro h
    cases connectOutcome <;> simp [set_connection, stateInv]
  · intro h
    cases hs : s.db with
    | none => simpa [close_connection, hs] using h
    | some v => simp [close_connection, hs, stateInv]
  · intro h hg
    have hdb : s.db = none := hg
    rw [stateInv, hdb] at h
    cases hu : s.db_url with
    | none => rfl
    | some u => rw [hu] at h; simp at h

/-- Witness for C10: the invariant after a successful connect from the
initial state, and the absent-URL consequence at the initial state. -/
theorem db_state_inv_spec_witness :
    stateInv (set_connection (some 5) "postgres://u" initDBState).1 = true
      ∧ initDBState.db_url = none :=
  ⟨(db_state_inv_spec initDBState "postgres://u" (some 5)).2.1 rfl,
   (db_state_inv_spec initDBState "postgres://u" (some 5)).2.2.2 rfl rfl⟩

/-- C6: for every engine, world state and SQL string, `run_sql` with no
open session fails (with the instruments-level "No database connection
available" guard when `db` is absent, and with the manager-level
`HTTPException` "No active database connection" when the manager's `conn`
or `cur` is absent) and the world is unchanged: no result file or query
file is written and no statement is executed. -/
theorem run_sql_no_session_spec (engine : String → Except String String)
    (w : InstrState) (sql : String) :
    (w.db = none → instr_run_sql engine w sql = (w, .error .noDbConnection))
      ∧ (∀ pm, w.db = some pm → (pm.conn.isNone || pm.cur.isNone) = true →
          instr_run_sql engine w sql = (w, .error .noActiveConnection)) := by
  constructor
  · intro h
    simp [instr_run_sql, h]
  · intro pm hpm hguard
    cases w with
    | mk db resultsFile queryFile executed =>
      cases hpm
      simp [instr_run_sql, pm_run_sql, hguard]

/-- Witness for C6: a world with no manager at all, and a world whose
manager has never connected. -/
theorem run_sql_no_session_spec_witness :
    instr_run_sql (fun _ => .ok "[]") ⟨none, none, none, []⟩ "SELECT 1"
        = (⟨none, none, none, []⟩, .error .noDbConnection)
      ∧ instr_run_sql (fun _ => .ok "[]") ⟨some ⟨none, none⟩, none, none, []⟩
          "SELECT 1"
        = (⟨some ⟨none, none⟩, none, none, []⟩, .error .noActiveConnection) :=
  ⟨(run_sql_no_session_spec (fun _ => .ok "[]") ⟨none, none, none, []⟩
      "SELECT 1").1 rfl,
   (run_sql_no_session_spec (fun _ => .ok "[]") ⟨some ⟨none, none⟩, none, none, []⟩
      "SELECT 1").2 ⟨none, none⟩ rfl rfl⟩

end DBSage
